import Mathlib

/-!
Verification of the resource-monitored content pipeline of the
Content-Creator-Tool repository.

The development shallowly embeds the parts of the source that the checked
properties talk about:

* `source/layers/middleware/monitoring.py` — `MetricsCollector` (a
  `defaultdict(list)` of per-operation metric records behind a lock) and
  `ResourceMonitor` (an `asyncio.Semaphore` guard around one awaited call of
  the work function).
* `source/apps/content/services.py` — the stage methods `_generate_script`,
  `_generate_voiceover`, `_process_assets` of `ContentCreationService`, and
  `ContentOrchestrationService.create_content_batch`.
* `source/apps/content/enhanced_services.py` —
  `EnhancedContentCreationService._execute_pipeline` and
  `EnhancedContentOrchestrationService._create_batch_with_monitoring`.

Python dictionaries are modelled as insertion-ordered association lists with
unique keys, Python exceptions as an explicit error type threaded through
`Except`, and Python object aliasing (needed for the shallow-copy behaviour of
`MetricsCollector.get_metrics`) as explicit references into a heap of lists.
Wall-clock time and thread interleaving are abstracted: durations are opaque
numbers and the semaphore discipline is modelled as a small-step transition
system.
-/

/-- Python runtime values that appear in the dictionaries handled by the
pipeline code: strings (scripts, error texts), numbers, booleans, `None`,
lists and nested dictionaries. -/
inductive Val where
  | vNone : Val
  | vStr : String → Val
  | vNat : Nat → Val
  | vBool : Bool → Val
  | vList : List Val → Val
  | vDict : List (String × Val) → Val

/-- Python dictionary with string keys, as an insertion-ordered association
list. All dictionaries built by the embedded code keep their keys unique, as
Python dictionaries do. -/
abbrev PyDict := List (String × Val)

/-- Python truthiness for the values above; in particular an empty string,
`None`, an empty list and an empty dict are falsy. This is the test performed
by `if not script:` in `_generate_voiceover`. -/
def pyTruthy : Val → Bool
  | .vNone => false
  | .vStr s => !s.isEmpty
  | .vNat n => n != 0
  | .vBool b => b
  | .vList l => !l.isEmpty
  | .vDict d => !d.isEmpty

/-- Dictionary lookup, `d.get(k)` / `d[k]`: the first entry with the key, if
any. -/
def dictGet : PyDict → String → Option Val
  | [], _ => none
  | p :: rest, k => if p.1 = k then some p.2 else dictGet rest k

/-- Dictionary write, `d[k] = v`: replaces the value in place when the key is
present (keeping the insertion position, as Python does) and appends a new
entry otherwise. -/
def dictSet : PyDict → String → Val → PyDict
  | [], k, v => [(k, v)]
  | p :: rest, k, v => if p.1 = k then (k, v) :: rest else p :: dictSet rest k v

/-- Dictionary merge, `d.update(e)`: writes every entry of `e` into `d` in
order, so entries of `e` overwrite same-named entries of `d`. -/
def dictUpdate (d e : PyDict) : PyDict :=
  e.foldl (fun acc p => dictSet acc p.1 p.2) d

/-- Python exceptions raised by the embedded code. The message strings are
ASCII paraphrases of the CPython messages (quotes dropped). -/
inductive PyExc where
  | typeError (msg : String)
  | valueError (msg : String)
  | timeoutError
deriving Repr, DecidableEq

/-- ServiceResult as produced by the pipeline stage methods
(`source/apps/core/services.py`). Stage methods always attach a dictionary
payload on success; the Python `data=None` of a failure result is modelled as
the empty dictionary, which is never merged into a context. -/
structure SR where
  success : Bool
  data : PyDict
  error : Option String

/-- ServiceResult.failed. -/
def SR.failed (r : SR) : Bool := !r.success

/-- Metric record as written by `ResourceMonitor.execute_with_monitoring`
(monitoring.py lines 131-138): the name of the awaited function and the
`success` flag, which is true exactly when the call did not raise. Durations
and the args/kwargs metadata are not needed by any checked property and are
dropped. -/
structure MetricEntry where
  operation : String
  success : Bool
deriving Repr, DecidableEq

/-- Bound method of `ContentCreationService` as passed to
`ResourceMonitor.execute_with_monitoring`: its `__name__` plus its body. The
three stage methods `_generate_script`, `_generate_voiceover` and
`_process_assets` all declare exactly one positional parameter (the context)
and no keyword parameters, and all wrap their bodies in a broad
`try/except Exception` returning a ServiceResult, so a body never raises. -/
structure PyMethod where
  name : String
  body : PyDict → SR

/-- Python call protocol for a `PyMethod`: calling with any keyword argument
raises TypeError before the body runs, because the stage methods declare no
keyword parameters. -/
def callWithKwargs (m : PyMethod) (ctx : PyDict) (kwargs : PyDict) :
    Except PyExc SR :=
  match kwargs with
  | [] => .ok (m.body ctx)
  | (k, _) :: _ =>
      .error (.typeError
        (m.name ++ "() got an unexpected keyword argument " ++ k))

/-- ResourceMonitor.execute_with_monitoring (monitoring.py lines 121-138)
applied to a stage method: acquires and releases the semaphore (trivial for
the sequential single-pipeline runs modelled here; the concurrent discipline
is modelled separately as a transition system), awaits `func(*args, **kwargs)`
exactly once inside `try`, records one metric in the `finally` block with
`success = False` exactly when the call raised, and re-raises the
exception. -/
def executeWithMonitoring (m : PyMethod) (ctx : PyDict) (kwargs : PyDict)
    (log : List MetricEntry) : Except PyExc SR × List MetricEntry :=
  match callWithKwargs m ctx kwargs with
  | .ok r => (.ok r, log ++ [⟨m.name, true⟩])
  | .error e => (.error e, log ++ [⟨m.name, false⟩])

/-- Initial pipeline context built by `_execute_pipeline` line 88:
`context = ` the dictionary holding the request under the key `request`. -/
def initialContext (request : PyDict) : PyDict := [("request", .vDict request)]

/-- EnhancedContentCreationService._execute_pipeline
(enhanced_services.py lines 86-123), with the three stage methods passed in.
The context starts as the dictionary with the single key `request`; every
stage is dispatched through `execute_with_monitoring` with the keyword
arguments `timeout=timeout, max_retries=max_retries`; a failed ServiceResult
is returned as is; a successful one has its data merged into the context with
`context.update`. Returns the result (or the propagated exception) together
with the metric log. -/
def executePipeline (s1 s2 s3 : PyMethod) (request : PyDict)
    (timeout maxRetries : Val) : Except PyExc SR × List MetricEntry :=
  let c0 := initialContext request
  let kwargs : PyDict := [("timeout", timeout), ("max_retries", maxRetries)]
  match executeWithMonitoring s1 c0 kwargs [] with
  | (.error e, log) => (.error e, log)
  | (.ok r1, log) =>
    if r1.failed then (.ok r1, log) else
    let c1 := dictUpdate c0 r1.data
    match executeWithMonitoring s2 c1 kwargs log with
    | (.error e, log2) => (.error e, log2)
    | (.ok r2, log2) =>
      if r2.failed then (.ok r2, log2) else
      let c2 := dictUpdate c1 r2.data
      match executeWithMonitoring s3 c2 kwargs log2 with
      | (.error e, log3) => (.error e, log3)
      | (.ok r3, log3) =>
        if r3.failed then (.ok r3, log3) else
        (.ok ⟨true, dictUpdate c2 r3.data, none⟩, log3)

/-- Behaviour of one monitored stage call: either the ServiceResult the stage
method returned, or a propagated exception. -/
abbrev Stage := PyDict → Except PyExc SR

/-- Control flow of `_execute_pipeline` parameterised by the outcome of each
monitored stage call (for stage methods called without stray keyword
arguments, `executeWithMonitoring` returns the ServiceResult of the stage body
unchanged, see `executeWithMonitoring_passthrough`). Besides the result it
returns the final value of the mutable `context` dictionary, so that frame
properties about the context can be stated. -/
def pipelineTrace (s1 s2 s3 : Stage) (request : PyDict) :
    Except PyExc SR × PyDict :=
  let c0 := initialContext request
  match s1 c0 with
  | .error e => (.error e, c0)
  | .ok r1 =>
    if r1.failed then (.ok r1, c0) else
    let c1 := dictUpdate c0 r1.data
    match s2 c1 with
    | .error e => (.error e, c1)
    | .ok r2 =>
      if r2.failed then (.ok r2, c1) else
      let c2 := dictUpdate c1 r2.data
      match s3 c2 with
      | .error e => (.error e, c2)
      | .ok r3 =>
        if r3.failed then (.ok r3, c2) else
        (.ok ⟨true, dictUpdate c2 r3.data, none⟩, dictUpdate c2 r3.data)

/-- ContentCreationService._generate_voiceover (services.py lines 50-73),
instrumented with the number of times the body of the voiceover generator is
entered. The method first reads `context.get('script')` and returns the
failure `ServiceResult(False, error="Script not found in context")` whenever
the value is missing or falsy (in particular for the empty string), before
touching settings or the generator. On a truthy script the body reaches
`await self.voiceover_gen.generate_voiceover(script, max_retries=..., timeout=...)`;
`generate_voiceover` declares no `max_retries` or `timeout` parameters, so the
call raises TypeError before the generator body runs, and the enclosing
`except Exception` turns it into a failure ServiceResult. The generator body
is therefore entered zero times on every path. -/
def generateVoiceover (context : PyDict) : SR × Nat :=
  match dictGet context "script" with
  | none => (⟨false, [], some "Script not found in context"⟩, 0)
  | some script =>
    if !pyTruthy script then
      (⟨false, [], some "Script not found in context"⟩, 0)
    else
      (⟨false, [],
        some "generate_voiceover() got an unexpected keyword argument max_retries"⟩, 0)

/-- ServiceResult with an arbitrary Python value as payload, as returned by
the batch-level services (`data` is `None` on the failure paths). -/
structure PySR where
  success : Bool
  data : Option Val
  error : Option String

/-- ContentGenerationUtility.batch_generate_scripts
(content_generation.py lines 196-225): submits `generate_script` for every
config to a thread pool and collects `result.data if result.success else None`
per config, wrapped in `ServiceResult(True, results)`. The per-config outcome
of `generate_script` (a plain synchronous method that catches all its own
exceptions) is abstracted as the oracle `gen`, returning the result data on
success and `none` on failure. -/
def batchGenerateScripts (gen : PyDict → Option PyDict)
    (configs : List PyDict) : PySR :=
  ⟨true,
   some (.vList (configs.map fun c =>
     match gen c with
     | some d => .vDict d
     | none => .vNone)),
   none⟩

/-- ContentOrchestrationService.create_content_batch
(services.py lines 346-391). The first statement of the `try` block is
`script_results = await self.content_gen.batch_generate_scripts(batch_config)`;
`batch_generate_scripts` is a plain synchronous function, so the call runs to
completion and produces a ServiceResult, and the `await` of that
non-awaitable value then raises TypeError, which the enclosing
`except Exception` converts into a failure ServiceResult. The remainder of
the body (voiceover batch, the per-index filtering into `content_items`, and
`process_batch_content`) is unreachable. -/
def createContentBatch (gen : PyDict → Option PyDict)
    (batchConfig : List PyDict) : PySR :=
  let _scriptResults := batchGenerateScripts gen batchConfig
  ⟨false, none, some "object ServiceResult can not be used in await expression"⟩

/-- EnhancedContentOrchestrationService._create_batch_with_monitoring
(enhanced_services.py lines 268-286). Its first statement is
`async with self._batch_monitor() as monitor:`; `_batch_monitor` is an
`async def`, so calling it yields a coroutine object, which implements
neither `__aenter__` nor `__aexit__`; `async with` therefore raises TypeError
immediately, there is no enclosing handler, and no metric is ever recorded. -/
def createBatchWithMonitoring (batchConfig : List PyDict) :
    Except PyExc PySR :=
  .error (.typeError
    "coroutine object does not support the asynchronous context manager protocol")

/-- Length of a Python value, `len(x)`; `len` of `None` raises TypeError. -/
def pyLen : Val → Except PyExc Int
  | .vStr s => .ok s.length
  | .vList l => .ok l.length
  | .vDict d => .ok d.length
  | _ => .error (.typeError "object has no len")

/-- Summary-count dictionary built at enhanced_services.py lines 277-281 for
`monitor.record_metrics` (the code that would run if the `async with` bug
were repaired): `total = len(batch_config)`,
`successful = len(result.data) if result.success else 0`, and
`failed = len(batch_config) - len(result.data) if result.success else len(batch_config)`.
When `result` is the success value of `create_content_batch` its data is the
dictionary with the single key `results`, so `len(result.data)` counts the
keys of that dictionary, not the items of the batch. -/
def batchSummaryCounts (batchConfig : List PyDict) (result : PySR) :
    Except PyExc (Int × Int × Int) :=
  if result.success then
    match result.data with
    | some d => do
        let n ← pyLen d
        .ok ((batchConfig.length : Int), n, (batchConfig.length : Int) - n)
    | none => .error (.typeError "object has no len")
  else
    .ok ((batchConfig.length : Int), 0, (batchConfig.length : Int))

/-- Outcome of a single attempt of a work function handed to the resource
monitor: indexed by attempt number, each attempt either returns a value or
raises. -/
abbrev WorkBehavior (α : Type) := Nat → Except PyExc α

/-- ResourceMonitor.execute_with_monitoring (monitoring.py lines 121-138) for
an arbitrary work function, instrumented with the number of times the work
function is awaited. The body `async with self.semaphore: try: result =
await func(*args, **kwargs) ... finally: record` contains no loop: the work
function is awaited exactly once, its exception (if any) is re-raised after
the metric is recorded, and the `timeout`/`max_retries` keyword arguments are
not interpreted by the monitor (they are forwarded into the call). -/
def executeWithMonitoringCount (w : WorkBehavior α) : Except PyExc α × Nat :=
  (w 0, 1)

/-- Final outcome classification of the executor described by the
specification. -/
inductive SpecResult (α : Type) where
  | ok (a : α)
  | timeout
  | retriesExhausted (e : PyExc)
deriving Repr

/-- Modelled from the spec: section 4.2 of the specification describes
`ResourceMonitor.execute` as attempting the work under the per-attempt
timeout and, on attempt failure, retrying up to `max_retries` additional
times before giving up, classifying the outcome as `Timeout` when the last
attempt exceeded the deadline. No such retry loop exists in
`monitoring.py`; this definition follows the words of the spec so the two
executors can be compared. `specExecuteFrom w i budget` runs attempts
`i, i+1, ...` with `budget` retries left and also returns the number of
attempts made. -/
def specExecuteFrom (w : WorkBehavior α) (i : Nat) :
    Nat → SpecResult α × Nat
  | 0 =>
    match w i with
    | .ok a => (.ok a, 1)
    | .error .timeoutError => (.timeout, 1)
    | .error e => (.retriesExhausted e, 1)
  | budget + 1 =>
    match w i with
    | .ok a => (.ok a, 1)
    | .error _ =>
      let (r, n) := specExecuteFrom w (i + 1) budget
      (r, n + 1)

/-- Work function of the scenario in the claim: every attempt exceeds the
per-attempt deadline, i.e. raises `asyncio.TimeoutError`. -/
def alwaysTimeout : WorkBehavior PyDict := fun _ => .error .timeoutError

/-- Way in which one monitored call leaves its work: normal return, a raised
exception, or cancellation of the awaiting task. In the source all three
paths go through the `finally` block and the exit of
`async with self.semaphore`, which releases the slot unconditionally. -/
inductive ExitKind where
  | success
  | raised
  | cancelled
deriving Repr, DecidableEq

/-- Phase of one call to `ResourceMonitor.execute_with_monitoring`: suspended
in `semaphore.acquire`, holding a slot while the work function is mid-flight,
or finished (with the slot given back). -/
inductive TaskPhase where
  | waiting
  | running
  | done (k : ExitKind)
deriving Repr, DecidableEq

/-- Test used to count mid-flight work functions. -/
def TaskPhase.isRunning : TaskPhase → Bool
  | .running => true
  | _ => false

/-- Global state of one `ResourceMonitor`: the counter of its
`asyncio.Semaphore` and the phase of every call issued against it. -/
structure MonState where
  sem : Nat
  tasks : List TaskPhase
deriving Repr, DecidableEq

/-- Number of work functions mid-flight. -/
def runningCount (s : MonState) : Nat := s.tasks.countP TaskPhase.isRunning

/-- Small-step semantics of the semaphore discipline of
`execute_with_monitoring`: a waiting call may enter only while the counter is
positive, decrementing it (`semaphore.acquire`); a running call may finish
with any exit kind, incrementing the counter (the exit of
`async with self.semaphore`, reached from the `finally` block on return,
exception and cancellation alike — the release does not depend on the exit
kind). -/
inductive MonStep : MonState → MonState → Prop where
  | acquire (s : MonState) (i : Nat)
      (h : s.tasks.get? i = some .waiting) (hsem : 0 < s.sem) :
      MonStep s ⟨s.sem - 1, s.tasks.set i .running⟩
  | finish (s : MonState) (i : Nat) (k : ExitKind)
      (h : s.tasks.get? i = some .running) :
      MonStep s ⟨s.sem + 1, s.tasks.set i (.done k)⟩

/-- Initial state of a monitor constructed with
`ResourceMonitor(max_workers)` and `n` pending calls: the semaphore counter
is the full budget and every call is waiting. -/
def monInit (maxWorkers n : Nat) : MonState :=
  ⟨maxWorkers, List.replicate n .waiting⟩

/-- States reachable by interleaving the calls in any order. -/
inductive MonReach (maxWorkers n : Nat) : MonState → Prop where
  | init : MonReach maxWorkers n (monInit maxWorkers n)
  | step {s s' : MonState} : MonReach maxWorkers n s → MonStep s s' →
      MonReach maxWorkers n s'

/-- One recorded metric observation as appended by
`MetricsCollector.record_metric` (monitoring.py lines 20-28): a Python
dictionary with the four keys `duration`, `timestamp`, `success` and
`metadata`. Durations are opaque numbers and timestamps opaque strings. -/
structure Metric where
  duration : Nat
  timestamp : String
  success : Bool
  metadata : PyDict

/-- The metric dictionary as a Python dictionary value: four entries. -/
def metricEntries (m : Metric) : PyDict :=
  [("duration", .vNat m.duration), ("timestamp", .vStr m.timestamp),
   ("success", .vBool m.success), ("metadata", .vDict m.metadata)]

/-- Heap of Python list objects; a reference is an index. Mutating a list in
place is visible through every reference to it, which is how the shallow-copy
behaviour of `dict(self.metrics)` is expressed. -/
abbrev Heap := List (List Metric)

/-- Content of the list object behind a reference. -/
def heapGet (h : Heap) (r : Nat) : List Metric := h.getD r []

/-- In-place `list.append` through a reference. -/
def heapAppend (h : Heap) (r : Nat) (m : Metric) : Heap :=
  h.set r (heapGet h r ++ [m])

/-- State of a `MetricsCollector`: `self.metrics` is a
`defaultdict(list)` mapping operation names to references to list objects on
the heap. The internal lock serialises the operations; each embedded
operation below is one critical section. -/
structure Collector where
  entries : List (String × Nat)

/-- Lookup of an operation in the defaultdict without triggering the default
factory. -/
def lookupRef : List (String × Nat) → String → Option Nat
  | [], _ => none
  | p :: rest, k => if p.1 = k then some p.2 else lookupRef rest k

/-- Subscript access `self.metrics[operation]` on the `defaultdict(list)`:
returns the existing reference, or allocates a fresh empty list, stores a
reference to it under the operation, and returns it. -/
def ddGet (c : Collector) (h : Heap) (op : String) :
    Nat × Collector × Heap :=
  match lookupRef c.entries op with
  | some r => (r, c, h)
  | none => (h.length, ⟨c.entries ++ [(op, h.length)]⟩, h ++ [[]])

/-- MetricsCollector.record_metric (monitoring.py lines 20-28): appends the
metric dictionary to `self.metrics[operation]`; a falsy `metadata` argument
is replaced by the empty dictionary (`metadata or ` on line 27). -/
def recordMetric (c : Collector) (h : Heap) (op : String) (duration : Nat)
    (timestamp : String) (success : Bool) (metadata : Option PyDict) :
    Collector × Heap :=
  let (r, c', h') := ddGet c h op
  (c', heapAppend h' r
    ⟨duration, timestamp, success,
     match metadata with
     | some l => l
     | none => []⟩)

/-- MetricsCollector.get_metrics() without an argument
(monitoring.py line 34): `dict(self.metrics)` builds a fresh top-level
dictionary holding the same keys bound to the same list references — a
shallow copy. The collector state is not touched. -/
def getMetricsAll (c : Collector) : List (String × Nat) := c.entries

/-- Conversion of one element of `dict(sequence)`: each element must be a
sequence of length two; iterating a Python dictionary yields its keys, so an
element that is itself a dictionary contributes its first key as the key and
its second key as the value, and any other size raises ValueError. -/
def dictFromKeyPair : PyDict → Except PyExc (String × Val)
  | [p, q] => .ok (p.1, .vStr q.1)
  | l =>
      .error (.valueError
        ("dictionary update sequence element has length "
          ++ toString l.length ++ "; 2 is required"))

/-- Python `dict(seq)` over a list of dictionaries. -/
def pyDictOfSeq (seq : List PyDict) : Except PyExc PyDict :=
  seq.foldlM (fun acc e => do
    let p ← dictFromKeyPair e
    pure (dictSet acc p.1 p.2)) []

/-- MetricsCollector.get_metrics(operation) (monitoring.py lines 30-33):
`dict(self.metrics[operation])` — the defaultdict subscript first inserts an
empty list when the operation is unknown, then `dict(...)` is applied to the
list of metric dictionaries. -/
def getMetricsOp (c : Collector) (h : Heap) (op : String) :
    Except PyExc PyDict × Collector × Heap :=
  let (r, c', h') := ddGet c h op
  (pyDictOfSeq ((heapGet h' r).map metricEntries), c', h')

/-- MetricsCollector.clear_metrics (monitoring.py lines 36-38):
`self.metrics.clear()` empties the mapping; the list objects stay on the
heap but become unreachable from the collector. -/
def clearMetrics (_ : Collector) (h : Heap) : Collector × Heap := (⟨[]⟩, h)

/-- Metrics the collector subsequently observes for an operation: the content
of the list object its store references (empty when the operation is
unknown). -/
def opMetrics (c : Collector) (h : Heap) (op : String) : List Metric :=
  match lookupRef c.entries op with
  | some r => heapGet h r
  | none => []

/-- Stage behaviour returning a successful script result, used to exercise
the pipeline theorems on concrete runs. -/
def stageScriptOk : Stage := fun _ => .ok ⟨true, [("script", .vStr "hello")], none⟩

/-- Stage behaviour returning a successful script result whose script text is
the empty string. -/
def stageScriptEmpty : Stage := fun _ => .ok ⟨true, [("script", .vStr "")], none⟩

/-- Stage behaviour returning a successful voiceover result. -/
def stageVoiceOk : Stage := fun _ => .ok ⟨true, [("voiceover", .vStr "audio")], none⟩

/-- Stage behaviour returning a successful asset-processing result. -/
def stageAssetsOk : Stage := fun _ => .ok ⟨true, [("processed_assets", .vList [])], none⟩

/-- Stage behaviour returning a failed ServiceResult. -/
def stageFailing : Stage := fun _ => .ok ⟨false, [], some "stage failed"⟩

/-- Intermediate state of a concrete two-call run against a monitor with one
admission slot: the first call acquired the slot, raised and released it, the
second call is mid-flight. -/
def monMid : MonState := ⟨0, [.done .raised, .running]⟩

/-- Final state of the same run: both calls finished, the full budget is
available again. -/
def monFinal : MonState := ⟨1, [.done .raised, .done .success]⟩


theorem dictGet_dictSet_self (d : PyDict) (k : String) (v : Val) :
    dictGet (dictSet d k v) k = some v := by
  induction d with
  | nil => simp [dictSet, dictGet]
  | cons p rest ih =>
    by_cases h : p.1 = k
    · simp [dictSet, dictGet, h]
    · simp [dictSet, dictGet, h, ih]

theorem dictGet_dictSet_ne (d : PyDict) (k k' : String) (v : Val)
    (h : k' ≠ k) : dictGet (dictSet d k v) k' = dictGet d k' := by
  induction d with
  | nil =>
    simp only [dictSet, dictGet]
    rw [if_neg (fun hh => h hh.symm)]
  | cons p rest ih =>
    by_cases hp : p.1 = k
    · simp only [dictSet, if_pos hp, dictGet]
      rw [if_neg (fun hh => h hh.symm), if_neg (fun hh => h (hp ▸ hh).symm)]
    · simp only [dictSet, if_neg hp, dictGet]
      rw [ih]

theorem dictGet_dictUpdate_not_mem (c d : PyDict) (k : String)
    (h : k ∉ d.map Prod.fst) :
    dictGet (dictUpdate c d) k = dictGet c k := by
  induction d generalizing c with
  | nil => rfl
  | cons p rest ih =>
    simp only [List.map_cons, List.mem_cons, not_or] at h
    have step : dictUpdate c (p :: rest) = dictUpdate (dictSet c p.1 p.2) rest := rfl
    rw [step, ih _ h.2, dictGet_dictSet_ne _ _ _ _ h.1]

theorem dictGet_dictUpdate_mem (c d : PyDict) (k : String) (v : Val)
    (hnd : (d.map Prod.fst).Nodup) (h : (k, v) ∈ d) :
    dictGet (dictUpdate c d) k = some v := by
  induction d generalizing c with
  | nil => cases h
  | cons p rest ih =>
    simp only [List.map_cons, List.nodup_cons] at hnd
    have step : dictUpdate c (p :: rest) = dictUpdate (dictSet c p.1 p.2) rest := rfl
    rcases List.mem_cons.mp h with hh | hh
    · subst hh
      rw [step, dictGet_dictUpdate_not_mem _ _ _ hnd.1, dictGet_dictSet_self]
    · rw [step, ih _ hnd.2 hh]

theorem executeWithMonitoring_passthrough (m : PyMethod) (ctx : PyDict)
    (log : List MetricEntry) :
    executeWithMonitoring m ctx [] log = (.ok (m.body ctx), log ++ [⟨m.name, true⟩]) := rfl

theorem specExecuteFrom_alwaysTimeout (i budget : Nat) :
    specExecuteFrom alwaysTimeout i budget = (.timeout, budget + 1) := by
  induction budget generalizing i with
  | zero => rfl
  | succ b ih => simp [specExecuteFrom, alwaysTimeout, ih]

theorem countP_set_of_get? {α : Type} (p : α → Bool) (l : List α) (i : Nat)
    (b a : α) (h : l.get? i = some b) :
    (l.set i a).countP p + (if p b then 1 else 0)
      = l.countP p + (if p a then 1 else 0) := by
  induction l generalizing i with
  | nil => simp at h
  | cons x xs ih =>
    cases i with
    | zero =>
      simp only [List.get?] at h
      cases h
      simp only [List.set, List.countP_cons]
      omega
    | succ j =>
      simp only [List.get?] at h
      simp only [List.set, List.countP_cons]
      have := ih j h
      omega

theorem monReach_slot_conservation {maxWorkers n : Nat} {s : MonState}
    (h : MonReach maxWorkers n s) : runningCount s + s.sem = maxWorkers := by
  induction h with
  | init => simp [monInit, runningCount, List.countP_eq_zero.mpr, TaskPhase.isRunning]
  | step _ hstep ih =>
    rename_i s s' hsteps
    cases hstep with
    | acquire i hi hsem =>
      have hc := countP_set_of_get? TaskPhase.isRunning s.tasks i _ .running hi
      simp [TaskPhase.isRunning] at hc
      simp only [runningCount] at ih ⊢
      omega
    | finish i k hi =>
      have hc := countP_set_of_get? TaskPhase.isRunning s.tasks i _ (.done k) hi
      simp [TaskPhase.isRunning] at hc
      simp only [runningCount] at ih ⊢
      omega

/-- C1: `ContentOrchestrationService.create_content_batch` never returns a
per-item result sequence at all — the first `await` of the synchronous
`batch_generate_scripts` raises TypeError, the broad `except` converts it to
a batch-level failure with `data=None`, so no batch satisfies
`len(results) == len(requests)` (while the per-config script generation that
runs before the failed `await` does produce one entry per request). -/
theorem createContentBatch_always_fails (gen : PyDict → Option PyDict)
    (batchConfig : List PyDict) :
    createContentBatch gen batchConfig =
      ⟨false, none, some "object ServiceResult can not be used in await expression"⟩ ∧
    ∃ l, (batchGenerateScripts gen batchConfig).data = some (.vList l) ∧
      l.length = batchConfig.length := by
  refine ⟨rfl, ?_⟩
  exact ⟨_, rfl, by simp [batchGenerateScripts]⟩

/-- C2: `ResourceMonitor.execute_with_monitoring` contains no retry loop and
no timeout handling: a work function whose every attempt raises TimeoutError
is awaited exactly once and its exception is re-raised, whereas the executor
described by the spec would make `max_retries + 1` attempts and classify the
outcome as Timeout; at `max_retries = 2` the attempt counts are 3 versus 1. -/
theorem executeWithMonitoring_single_attempt (maxRetries : Nat) :
    (executeWithMonitoringCount alwaysTimeout).2 = 1 ∧
    (executeWithMonitoringCount alwaysTimeout).1 = .error .timeoutError ∧
    specExecuteFrom alwaysTimeout 0 maxRetries = (.timeout, maxRetries + 1) ∧
    (specExecuteFrom alwaysTimeout 0 2).2 ≠ (executeWithMonitoringCount alwaysTimeout).2 := by
  refine ⟨rfl, rfl, specExecuteFrom_alwaysTimeout 0 maxRetries, ?_⟩
  rw [specExecuteFrom_alwaysTimeout]
  decide

/-- C3: in every state reachable by interleaving calls to
`ResourceMonitor.execute_with_monitoring` against a monitor built with
`max_workers` slots, at most `max_workers` work functions are mid-flight, the
mid-flight count plus the free semaphore counter always equals the budget,
and whenever no call is mid-flight the full budget is available again — so
finished calls, whatever their exit path (the `finish` transition releases
the slot for normal return, exception and cancellation alike), never retain a
slot. -/
theorem monitor_bounded_concurrency {maxWorkers n : Nat} {s : MonState}
    (h : MonReach maxWorkers n s) :
    runningCount s ≤ maxWorkers ∧
    runningCount s + s.sem = maxWorkers ∧
    (runningCount s = 0 → s.sem = maxWorkers) := by
  have hc := monReach_slot_conservation h
  exact ⟨by omega, hc, by omega⟩

/-- C3 witness: a concrete two-call run against a one-slot monitor, at the
instant where the first call has finished by raising and the second is
mid-flight, and at its final state where the full budget is free again. -/
theorem monitor_bounded_concurrency_witness :
    (runningCount monMid ≤ 1 ∧ runningCount monMid + monMid.sem = 1 ∧
      (runningCount monMid = 0 → monMid.sem = 1)) ∧
    monFinal.sem = 1 := by
  have h0 : MonReach 1 2 (monInit 1 2) := .init
  have h1 : MonReach 1 2 ⟨0, [.running, .waiting]⟩ :=
    .step h0 (MonStep.acquire (monInit 1 2) 0 rfl (by decide))
  have h2 : MonReach 1 2 ⟨1, [.done .raised, .waiting]⟩ :=
    .step h1 (MonStep.finish ⟨0, [.running, .waiting]⟩ 0 .raised rfl)
  have h3 : MonReach 1 2 monMid :=
    .step h2 (MonStep.acquire ⟨1, [.done .raised, .waiting]⟩ 1 rfl (by decide))
  have h4 : MonReach 1 2 monFinal :=
    .step h3 (MonStep.finish monMid 1 .success rfl)
  exact ⟨monitor_bounded_concurrency h3,
    (monitor_bounded_concurrency h4).2.2 rfl⟩

/-- C4: for every request (valid or not) and any stage bodies, a run of
`_execute_pipeline` raises TypeError at the very first monitored stage call —
`execute_with_monitoring` forwards the `timeout` and `max_retries` keyword
arguments into `self._generate_script(context, ...)`, which declares no such
parameters — so the run returns neither a context holding the output keys of
the three stages nor a stage-identifying failure; exactly one failure metric
for `_generate_script` is recorded. -/
theorem executePipeline_always_raises (b1 b2 b3 : PyDict → SR)
    (request : PyDict) (timeout maxRetries : Val) :
    executePipeline ⟨"_generate_script", b1⟩ ⟨"_generate_voiceover", b2⟩
        ⟨"_process_assets", b3⟩ request timeout maxRetries =
      (.error (.typeError
        "_generate_script() got an unexpected keyword argument timeout"),
       [⟨"_generate_script", false⟩]) := rfl

/-- C5: `create_content_batch_with_monitoring` never reports summary counts:
its body `_create_batch_with_monitoring` raises TypeError at
`async with self._batch_monitor()` (a coroutine is not an asynchronous
context manager) for every batch; moreover the count dictionary its dead
success path would build uses `len(result.data)` where `data` is the
single-key dictionary holding `results`, so it would report
`successful = 1` and `failed = total - 1` regardless of the per-item
outcomes. -/
theorem createBatchWithMonitoring_raises (batchConfig : List PyDict) :
    createBatchWithMonitoring batchConfig =
      .error (.typeError
        "coroutine object does not support the asynchronous context manager protocol") ∧
    ∀ (rs : List Val) (cfg : List PyDict),
      batchSummaryCounts cfg ⟨true, some (.vDict [("results", .vList rs)]), none⟩ =
        .ok ((cfg.length : Int), 1, (cfg.length : Int) - 1) := by
  refine ⟨rfl, fun rs cfg => ?_⟩
  simp [batchSummaryCounts, pyLen, Except.bind]
  rfl

/-- C6: for every stage of a pipeline run (quantified over the outcomes of
the monitored stage calls): a failed stage makes the run return exactly that
failure with the context as it was before the stage ran (no key added,
removed or changed), while a successful stage has its returned map merged
into the context by `context.update` — new keys are added and existing keys
are overwritten, the later writer winning. -/
theorem pipelineTrace_merge_and_frame (s1 s2 s3 : Stage) (request : PyDict) :
    (∀ r1, s1 (initialContext request) = .ok r1 → r1.success = false →
      pipelineTrace s1 s2 s3 request = (.ok r1, initialContext request)) ∧
    (∀ r1 r2, s1 (initialContext request) = .ok r1 → r1.success = true →
      s2 (dictUpdate (initialContext request) r1.data) = .ok r2 →
      r2.success = false →
      pipelineTrace s1 s2 s3 request =
        (.ok r2, dictUpdate (initialContext request) r1.data)) ∧
    (∀ r1 r2 r3, s1 (initialContext request) = .ok r1 → r1.success = true →
      s2 (dictUpdate (initialContext request) r1.data) = .ok r2 →
      r2.success = true →
      s3 (dictUpdate (dictUpdate (initialContext request) r1.data) r2.data)
        = .ok r3 →
      r3.success = false →
      pipelineTrace s1 s2 s3 request =
        (.ok r3, dictUpdate (dictUpdate (initialContext request) r1.data) r2.data)) ∧
    (∀ r1 r2 r3, s1 (initialContext request) = .ok r1 → r1.success = true →
      s2 (dictUpdate (initialContext request) r1.data) = .ok r2 →
      r2.success = true →
      s3 (dictUpdate (dictUpdate (initialContext request) r1.data) r2.data)
        = .ok r3 →
      r3.success = true →
      pipelineTrace s1 s2 s3 request =
        (.ok ⟨true,
          dictUpdate (dictUpdate (dictUpdate (initialContext request) r1.data)
            r2.data) r3.data, none⟩,
         dictUpdate (dictUpdate (dictUpdate (initialContext request) r1.data)
            r2.data) r3.data)) ∧
    (∀ (c d : PyDict) (k : String), k ∉ d.map Prod.fst →
      dictGet (dictUpdate c d) k = dictGet c k) ∧
    (∀ (c d : PyDict) (k : String) (v : Val), (d.map Prod.fst).Nodup →
      (k, v) ∈ d → dictGet (dictUpdate c d) k = some v) := by
  refine ⟨?_, ?_, ?_, ?_, dictGet_dictUpdate_not_mem, dictGet_dictUpdate_mem⟩
  · intro r1 h1 hf
    simp only [pipelineTrace]
    rw [h1]
    simp [SR.failed, hf]
  · intro r1 r2 h1 hs1 h2 hf
    simp only [pipelineTrace]
    rw [h1]
    simp only [SR.failed, hs1, Bool.not_true, if_false]
    rw [h2]
    simp [SR.failed, hf]
  · intro r1 r2 r3 h1 hs1 h2 hs2 h3 hf
    simp only [pipelineTrace]
    rw [h1]
    simp only [SR.failed, hs1, Bool.not_true, if_false]
    rw [h2]
    simp only [SR.failed, hs2, Bool.not_true, if_false]
    rw [h3]
    simp [SR.failed, hf]
  · intro r1 r2 r3 h1 hs1 h2 hs2 h3 hs3
    simp only [pipelineTrace]
    rw [h1]
    simp only [SR.failed, hs1, Bool.not_true, if_false]
    rw [h2]
    simp only [SR.failed, hs2, Bool.not_true, if_false]
    rw [h3]
    simp [SR.failed, hs3]

/-- C6 witness: concrete runs exercising every conjunct — a failure at each
of the three stages freezing the context, a fully successful run
accumulating the outputs of all three stages, and the two merge facts at
concrete dictionaries. -/
theorem pipelineTrace_merge_and_frame_witness :
    pipelineTrace stageFailing stageVoiceOk stageAssetsOk [] =
      (.ok ⟨false, [], some "stage failed"⟩, [("request", .vDict [])]) ∧
    pipelineTrace stageScriptOk stageFailing stageAssetsOk [] =
      (.ok ⟨false, [], some "stage failed"⟩,
       [("request", .vDict []), ("script", .vStr "hello")]) ∧
    pipelineTrace stageScriptOk stageVoiceOk stageFailing [] =
      (.ok ⟨false, [], some "stage failed"⟩,
       [("request", .vDict []), ("script", .vStr "hello"),
        ("voiceover", .vStr "audio")]) ∧
    pipelineTrace stageScriptOk stageVoiceOk stageAssetsOk [] =
      (.ok ⟨true,
        [("request", .vDict []), ("script", .vStr "hello"),
         ("voiceover", .vStr "audio"), ("processed_assets", .vList [])], none⟩,
       [("request", .vDict []), ("script", .vStr "hello"),
        ("voiceover", .vStr "audio"), ("processed_assets", .vList [])]) ∧
    dictGet (dictUpdate [("a", .vNat 1)] [("b", .vNat 2)]) "a" = some (.vNat 1) ∧
    dictGet (dictUpdate [("a", .vNat 1)] [("a", .vNat 2)]) "a" = some (.vNat 2) := by
  refine ⟨(pipelineTrace_merge_and_frame stageFailing stageVoiceOk stageAssetsOk []).1
      _ rfl rfl,
    (pipelineTrace_merge_and_frame stageScriptOk stageFailing stageAssetsOk []).2.1
      _ _ rfl rfl rfl rfl,
    (pipelineTrace_merge_and_frame stageScriptOk stageVoiceOk stageFailing []).2.2.1
      _ _ _ rfl rfl rfl rfl rfl rfl,
    (pipelineTrace_merge_and_frame stageScriptOk stageVoiceOk stageAssetsOk []).2.2.2.1
      _ _ _ rfl rfl rfl rfl rfl rfl,
    (pipelineTrace_merge_and_frame stageScriptOk stageVoiceOk stageAssetsOk []).2.2.2.2.1
      [("a", .vNat 1)] [("b", .vNat 2)] "a" (by simp),
    (pipelineTrace_merge_and_frame stageScriptOk stageVoiceOk stageAssetsOk []).2.2.2.2.2
      [("a", .vNat 1)] [("a", .vNat 2)] "a" (.vNat 2) (by simp) (by simp)⟩

theorem heapGet_heapAppend_self (h : Heap) (r : Nat) (m : Metric)
    (hr : r < h.length) :
    heapGet (heapAppend h r m) r = heapGet h r ++ [m] := by
  induction h generalizing r with
  | nil => simp at hr
  | cons x xs ih =>
    cases r with
    | zero => rfl
    | succ j =>
      have hj : j < xs.length := by simpa using hr
      simpa [heapAppend, heapGet, List.set, List.getD] using ih j hj

theorem lookupRef_append_self (l : List (String × Nat)) (op : String) (r : Nat)
    (h : lookupRef l op = none) :
    lookupRef (l ++ [(op, r)]) op = some r := by
  induction l with
  | nil => simp [lookupRef]
  | cons p rest ih =>
    by_cases hp : p.1 = op
    · simp [lookupRef, hp] at h
    · simp only [lookupRef, hp] at h
      simp only [List.cons_append, lookupRef, if_neg hp]
      exact ih h

/-- C7 counterexample: on a collector holding one recorded metric for `op1`,
the mapping returned by `get_metrics()` shares the per-operation list object
with the internal store; appending a second metric to that list through the
reference taken from the snapshot changes the metrics the collector
subsequently observes for `op1` — refuting the claim that mutations of the
returned mapping leave the collector state unchanged. -/
theorem getMetricsAll_shared_list_counterexample :
    lookupRef (getMetricsAll
        (recordMetric ⟨[]⟩ [] "op1" 5 "t0" true none).1) "op1" = some 0 ∧
    (opMetrics (recordMetric ⟨[]⟩ [] "op1" 5 "t0" true none).1
        (heapAppend (recordMetric ⟨[]⟩ [] "op1" 5 "t0" true none).2 0
          ⟨7, "t1", false, []⟩) "op1").length = 2 ∧
    (opMetrics (recordMetric ⟨[]⟩ [] "op1" 5 "t0" true none).1
        (recordMetric ⟨[]⟩ [] "op1" 5 "t0" true none).2 "op1").length = 1 ∧
    opMetrics (recordMetric ⟨[]⟩ [] "op1" 5 "t0" true none).1
        (heapAppend (recordMetric ⟨[]⟩ [] "op1" 5 "t0" true none).2 0
          ⟨7, "t1", false, []⟩) "op1" ≠
      opMetrics (recordMetric ⟨[]⟩ [] "op1" 5 "t0" true none).1
        (recordMetric ⟨[]⟩ [] "op1" 5 "t0" true none).2 "op1" := by
  refine ⟨rfl, rfl, rfl, fun heq => ?_⟩
  have hlen := congrArg List.length heq
  exact absurd hlen (by decide)

/-- C7 amended: `get_metrics()` returns a shallow copy — a fresh top-level
mapping that carries the very references of the internal store, so while the
collector state is untouched by the call itself and by top-level edits of the
copy, an in-place append through a per-operation list reference obtained from
the snapshot is visible in the metrics the collector subsequently observes
for that operation. -/
theorem getMetricsAll_shallow_copy (c : Collector) (h : Heap) (op : String)
    (r : Nat) (m : Metric)
    (hr : lookupRef (getMetricsAll c) op = some r) (hlt : r < h.length) :
    getMetricsAll c = c.entries ∧
    opMetrics c (heapAppend h r m) op = opMetrics c h op ++ [m] := by
  refine ⟨rfl, ?_⟩
  have hre : lookupRef c.entries op = some r := hr
  simp only [opMetrics, hre]
  exact heapGet_heapAppend_self h r m hlt

/-- C7 amended witness: the shallow-copy behaviour at a concrete collector
with one recorded metric. -/
theorem getMetricsAll_shallow_copy_witness :
    getMetricsAll ⟨[("op2", 0)]⟩ = [("op2", 0)] ∧
    opMetrics ⟨[("op2", 0)]⟩
        (heapAppend [[⟨3, "s0", true, []⟩]] 0 ⟨4, "s1", false, []⟩) "op2" =
      opMetrics ⟨[("op2", 0)]⟩ [[⟨3, "s0", true, []⟩]] "op2" ++
        [⟨4, "s1", false, []⟩] :=
  getMetricsAll_shallow_copy ⟨[("op2", 0)]⟩ [[⟨3, "s0", true, []⟩]] "op2" 0
    ⟨4, "s1", false, []⟩ rfl (by decide)

theorem heapGet_concat_length (h : Heap) (x : List Metric) :
    heapGet (h ++ [x]) h.length = x := by
  induction h with
  | nil => rfl
  | cons y ys ih => simpa [heapGet, List.getD] using ih

/-- C8: `MetricsCollector.get_metrics(operation)` raises for any operation
with at least one recorded metric: `dict(self.metrics[operation])` applies
`dict` to the list of metric records, and each record is a four-entry
dictionary, so the conversion raises ValueError — refuting the claim that no
public MetricsCollector operation ever raises. -/
theorem getMetricsOp_raises (op : String) (d : Nat) (ts : String) (b : Bool)
    (md : Option PyDict) :
    (getMetricsOp (recordMetric ⟨[]⟩ [] op d ts b md).1
        (recordMetric ⟨[]⟩ [] op d ts b md).2 op).1 =
      .error (.valueError
        "dictionary update sequence element has length 4; 2 is required") := by
  simp only [getMetricsOp, recordMetric, ddGet, lookupRef, heapAppend, heapGet,
    pyDictOfSeq, metricEntries, dictFromKeyPair, List.foldlM, Except.bind]
  simp
  rfl

/-- C9: calling `get_metrics` with an operation for which nothing was ever
recorded returns the empty mapping but mutates the collector — the
`defaultdict` subscript inserts a fresh empty list under that operation, and
the operation shows up as a new key of a subsequent `get_metrics()`
snapshot. -/
theorem getMetricsOp_unknown_inserts (c : Collector) (h : Heap) (op : String)
    (hmiss : lookupRef c.entries op = none) :
    (getMetricsOp c h op).1 = .ok [] ∧
    (getMetricsOp c h op).2.1.entries = c.entries ++ [(op, h.length)] ∧
    lookupRef (getMetricsAll (getMetricsOp c h op).2.1) op = some h.length := by
  refine ⟨?_, ?_, ?_⟩
  · simp only [getMetricsOp, ddGet, hmiss, heapGet_concat_length, pyDictOfSeq]
    rfl
  · simp [getMetricsOp, ddGet, hmiss]
  · simp only [getMetricsOp, ddGet, hmiss, getMetricsAll]
    exact lookupRef_append_self c.entries op h.length hmiss

/-- C9 witness: querying a fresh collector for the never-recorded operation
`newop` returns the empty mapping and leaves `newop` behind as a key of the
store. -/
theorem getMetricsOp_unknown_inserts_witness :
    (getMetricsOp ⟨[]⟩ [] "newop").1 = .ok [] ∧
    (getMetricsOp ⟨[]⟩ [] "newop").2.1.entries = [("newop", 0)] ∧
    lookupRef (getMetricsAll (getMetricsOp ⟨[]⟩ [] "newop").2.1) "newop"
      = some 0 :=
  getMetricsOp_unknown_inserts ⟨[]⟩ [] "newop" rfl

/-- C10: whenever the script stage of a pipeline run succeeds but leaves the
empty string as the script, the voiceover stage returns the failure
`Script not found in context` from its leading falsiness guard — entering the
voiceover generator zero times — and the run returns exactly that failure
with the context frozen as it was after the script stage. -/
theorem emptyScript_fails_voiceover (s1 s3 : Stage) (request : PyDict)
    (r1 : SR) (h1 : s1 (initialContext request) = .ok r1)
    (hs : r1.success = true)
    (hscript : dictGet (dictUpdate (initialContext request) r1.data) "script"
      = some (.vStr "")) :
    (generateVoiceover (dictUpdate (initialContext request) r1.data)).1 =
      ⟨false, [], some "Script not found in context"⟩ ∧
    (generateVoiceover (dictUpdate (initialContext request) r1.data)).2 = 0 ∧
    pipelineTrace s1 (fun c => .ok (generateVoiceover c).1) s3 request =
      (.ok ⟨false, [], some "Script not found in context"⟩,
       dictUpdate (initialContext request) r1.data) := by
  have hv : generateVoiceover (dictUpdate (initialContext request) r1.data) =
      (⟨false, [], some "Script not found in context"⟩, 0) := by
    simp only [generateVoiceover, hscript, pyTruthy]
    rfl
  refine ⟨by rw [hv], by rw [hv], ?_⟩
  simp only [pipelineTrace]
  rw [h1]
  simp only [SR.failed, hs, Bool.not_true, if_false]
  simp only [hv]
  simp [SR.failed]

/-- C10 witness: a concrete run whose script stage succeeds with the empty
string as script text fails at the voiceover stage with the guard error and
zero generator entries. -/
theorem emptyScript_fails_voiceover_witness :
    (generateVoiceover
        (dictUpdate (initialContext []) [("script", Val.vStr "")])).1 =
      ⟨false, [], some "Script not found in context"⟩ ∧
    (generateVoiceover
        (dictUpdate (initialContext []) [("script", Val.vStr "")])).2 = 0 ∧
    pipelineTrace stageScriptEmpty (fun c => .ok (generateVoiceover c).1)
        stageAssetsOk [] =
      (.ok ⟨false, [], some "Script not found in context"⟩,
       dictUpdate (initialContext []) [("script", Val.vStr "")]) :=
  emptyScript_fails_voiceover stageScriptEmpty stageAssetsOk []
    ⟨true, [("script", .vStr "")], none⟩ rfl rfl rfl
